import Mathlib

/-!
Verification development for the DailyFinanceReportAgent repository.

The repository holds two Python command-line scripts:
  * `scripts/ai_summary.py`  — the Summary Fetcher: calls a generative-language
    HTTP endpoint and prints the produced text;
  * `scripts/render_report.py` — the Report Renderer: turns a JSON payload into
    an HTML document and a plain-text document.

This file gives a shallow embedding of both scripts.  Python strings are
modelled as Lean `String` (a structure over `List Char`); machine-level
concerns do not arise.  Platform-dependent library calls that the scripts
make — `datetime.fromtimestamp(..).strftime(..)` (local-timezone formatting)
and `textwrap.wrap(.., 90)` — are abstracted as explicit function parameters
(`strf : Int → String`, `wrapFn : String → List String`); no verified claim
depends on their output.  Unicode-only behaviours of `str.isdigit` and
`str.strip` are modelled over the ASCII range.
-/

/-- Python `str.strip()` whitespace set, restricted to ASCII. -/
def isPySpace (c : Char) : Bool :=
  c = ' ' || c = '\t' || c = '\n' || c = '\r' || c = '\x0b' || c = '\x0c'

/-- Python `str.strip()` on a character list: drop whitespace at both ends. -/
def pyStrip (l : List Char) : List Char :=
  ((l.dropWhile isPySpace).reverse.dropWhile isPySpace).reverse

/-- Python `str.strip()` on a `String`. -/
def pyStripStr (s : String) : String :=
  String.mk (pyStrip s.data)

/-- Worker for Python `str.splitlines()`: `acc` holds the current line
reversed; a line break is `\r\n`, `\r` or `\n`; a trailing fragment is kept
only when non-empty (Python: `"a\n".splitlines() == ["a"]`). -/
def splitlinesGo : List Char → List Char → List (List Char)
  | acc, [] => if acc.isEmpty then [] else [acc.reverse]
  | acc, '\r' :: '\n' :: rest => acc.reverse :: splitlinesGo [] rest
  | acc, '\r' :: rest => acc.reverse :: splitlinesGo [] rest
  | acc, '\n' :: rest => acc.reverse :: splitlinesGo [] rest
  | acc, c :: rest => splitlinesGo (c :: acc) rest

/-- Python `str.splitlines()` (modelled for `\n`, `\r`, `\r\n` breaks). -/
def pySplitlines (l : List Char) : List (List Char) :=
  splitlinesGo [] l

/-- Python `line.startswith(('- ', '* '))` in `parse_ai_summary`. -/
def isDashStar : List Char → Bool
  | '-' :: ' ' :: _ => true
  | '*' :: ' ' :: _ => true
  | _ => false

/-- Python `line[:2].isdigit()`: the first `min 2 (length)` characters form a
non-empty all-digit string.  (`str.isdigit` is false on the empty string.) -/
def pyIsdigitPre2 (l : List Char) : Bool :=
  !(l.take 2).isEmpty && (l.take 2).all Char.isDigit

/-- Python `line[:2].isdigit() and line[2:3] in {'.', ')'}` — the numbered
bullet test of `parse_ai_summary` (render_report.py line 34). -/
def isNumMark (l : List Char) : Bool :=
  pyIsdigitPre2 l &&
    (match l.drop 2 with
     | c :: _ => c = '.' || c = ')'
     | [] => false)

/-- One stripped non-empty line is a bullet line when either marker test of
`parse_ai_summary` accepts it. -/
def isBulletLine (l : List Char) : Bool :=
  isDashStar l || isNumMark l

/-- The bullet content `parse_ai_summary` stores for a bullet line:
`line[2:].strip()` for `- ` / `* ` markers, `line[3:].strip()` for the
numbered marker. -/
def bulletContent (l : List Char) : String :=
  if isDashStar l then String.mk (pyStrip (l.drop 2))
  else String.mk (pyStrip (l.drop 3))

/-- The loop body of `parse_ai_summary` (render_report.py lines 31-37),
processing the stripped non-empty lines in order. -/
def classifyLines : List (List Char) → List String × List String
  | [] => ([], [])
  | l :: rest =>
    let bp := classifyLines rest
    if isDashStar l then (String.mk (pyStrip (l.drop 2)) :: bp.1, bp.2)
    else if isNumMark l then (String.mk (pyStrip (l.drop 3)) :: bp.1, bp.2)
    else (bp.1, String.mk l :: bp.2)

/-- Python `[line.strip() for line in summary.splitlines() if line.strip()]`
(render_report.py line 28). -/
def nonEmptyLines (s : String) : List (List Char) :=
  ((pySplitlines s.data).map pyStrip).filter (fun l => !l.isEmpty)

/-- `parse_ai_summary` (render_report.py lines 25-38).  `none` models a JSON
null `aiSummary`; `if not summary` also catches the empty string. -/
def parse_ai_summary (s : Option String) : List String × List String :=
  match s with
  | none => ([], [])
  | some str => if str = "" then ([], []) else classifyLines (nonEmptyLines str)

/-- The stripped non-empty lines `parse_ai_summary` iterates over, lifted to
the optional-string input. -/
def summaryLines (s : Option String) : List (List Char) :=
  match s with
  | none => []
  | some str => if str = "" then [] else nonEmptyLines str

/-! ### Summary Fetcher (`scripts/ai_summary.py`) -/

/-- Python truthiness of an optional string (`None` and `""` are falsy). -/
def truthyStrOpt : Option String → Bool
  | none => false
  | some s => !(s = "")

/-- The JSON payload read by `ai_summary.py` (`data.get('model')`,
`data.get('prompt')`); `none` models an absent or null field. -/
structure GenPayload where
  model : Option String
  prompt : Option String

/-- One part of a candidate's content: `part.get('text', '')`. -/
structure GenPart where
  text : Option String

/-- A candidate's content object: `.get('parts', [])`. -/
structure GenContent where
  parts : Option (List GenPart)

/-- One element of the `candidates` array: `.get('content', {})`. -/
structure GenCandidate where
  content : Option GenContent

/-- The HTTP response: `ok` models `raise_for_status()` passing (2xx), and
`candidates` the `payload.get('candidates')` field (`none` = absent/null). -/
structure GenResponse where
  ok : Bool
  candidates : Option (List GenCandidate)

/-- The single request `ai_summary.py` may issue via `requests.post`. -/
structure GenRequest where
  endpoint : String
  key : String
  prompt : String
deriving DecidableEq

/-- `data.get('model') or 'gemini-1.5-pro-latest'` (ai_summary.py line 22). -/
def resolvedModel (data : GenPayload) : String :=
  match data.model with
  | none => "gemini-1.5-pro-latest"
  | some m => if m = "" then "gemini-1.5-pro-latest" else m

/-- The endpoint template of ai_summary.py line 27. -/
def genEndpoint (model : String) : String :=
  "https://generativelanguage.googleapis.com/v1beta/models/" ++ model ++ ":generateContent"

/-- The request built at ai_summary.py lines 29-41 from the resolved model,
the API key and the prompt. -/
def builtRequest (key : String) (data : GenPayload) : GenRequest :=
  ⟨genEndpoint (resolvedModel data), key, data.prompt.getD ""⟩

/-- The text extraction of ai_summary.py lines 49-50 applied to one
candidate: `''.join(part.get('text', '') for part in parts).strip()` over
`candidate.get('content', {}).get('parts', [])`. -/
def candidateText (c : GenCandidate) : String :=
  pyStripStr (String.join (((c.content.getD ⟨none⟩).parts.getD []).map
    (fun part => part.text.getD "")))

/-- Modelled from the spec: "From the JSON response, take the first
candidate; concatenate all of its text parts in order with no separator;
trim whitespace" — the empty string when there is no candidate. -/
def firstCandidateText (resp : GenResponse) : String :=
  match resp.candidates.getD [] with
  | [] => ""
  | c :: _ => candidateText c

/-- The body of `main()` in ai_summary.py (lines 12-54).  `apiKey` is the
`GOOGLE_AI_API_KEY` environment variable, `data` the parsed input payload,
`send` the network (`requests.post` composed with `.json()`).  Returns the
list of requests actually issued together with either the printed summary
text or the message of the raised exception. -/
def aiMain (apiKey : Option String) (data : GenPayload)
    (send : GenRequest → GenResponse) : List GenRequest × Except String String :=
  match apiKey with
  | none => ([], .error "GOOGLE_AI_API_KEY environment variable is required")
  | some key =>
    if key = "" then ([], .error "GOOGLE_AI_API_KEY environment variable is required")
    else
      match data.prompt with
      | none => ([], .error "Payload missing \"prompt\" field")
      | some p =>
        if p = "" then ([], .error "Payload missing \"prompt\" field")
        else
          let req := builtRequest key data
          let resp := send req
          if !resp.ok then ([req], .error "HTTP status error")
          else
            match resp.candidates.getD [] with
            | [] => ([req], .error "No candidates returned by Gemini API")
            | c :: _ =>
              let output := candidateText c
              if output = "" then ([req], .error "Gemini response contained no text")
              else ([req], .ok output)

/-- Outcome of a whole process run: what was printed to stdout on success,
or to stderr on an exit-code-1 failure. -/
inductive RunResult where
  | success (stdout : String)
  | failure (stderr : String)
deriving DecidableEq

/-- Exit code of a run: 0 on success, 1 on failure (`sys.exit(1)`). -/
def exitCodeOf : RunResult → Nat
  | .success _ => 0
  | .failure _ => 1

/-- The `__main__` wrapper of ai_summary.py (lines 57-62): any exception is
printed to stderr with the `"AI summary renderer failed: "` prefix and the
process exits 1. -/
def aiRun (apiKey : Option String) (data : GenPayload)
    (send : GenRequest → GenResponse) : List GenRequest × RunResult :=
  match aiMain apiKey data send with
  | (reqs, .ok out) => (reqs, .success out)
  | (reqs, .error e) => (reqs, .failure ("AI summary renderer failed: " ++ e))

/-! ### Report Renderer (`scripts/render_report.py`): data model -/

/-- The `metrics` object of an account (all numeric). -/
structure Metrics where
  total : Int
  originals : Int
  replies : Int
  retweets : Int
  likes : Int
  engagementRetweets : Int
  engagementReplies : Int
deriving DecidableEq

/-- One element of `topTweets`; `timestamp` and `url` may be JSON null. -/
structure Tweet where
  timestamp : Option Int
  text : String
  likes : Int
  retweets : Int
  replies : Int
  url : Option String
deriving DecidableEq

/-- One element of the payload's `accounts` sequence. -/
structure Account where
  username : String
  windowStart : Option Int
  windowEnd : Option Int
  metrics : Metrics
  aiSummary : Option String
  topTweets : List Tweet
deriving DecidableEq

/-- The payload's `overview` object; the two timestamps may be JSON null. -/
structure Overview where
  accounts : Int
  totalTweets : Int
  totalLikes : Int
  totalRetweets : Int
  totalReplies : Int
  earliestStart : Option Int
  latestEnd : Option Int
deriving DecidableEq

/-- The whole report payload. -/
structure Payload where
  windowHours : Int
  overview : Overview
  accounts : List Account
deriving DecidableEq

/-- Python truthiness of an optional integer (`None` and `0` are falsy). -/
def truthyInt : Option Int → Bool
  | none => false
  | some n => !(n = 0)

/-- Digit grouping on a reversed digit list: insert `,` after every three
digits (worker for `fmt_number`). -/
def groupRev : List Char → List Char
  | a :: b :: c :: d :: rest => a :: b :: c :: ',' :: groupRev (d :: rest)
  | l => l

/-- `fmt_number` (render_report.py lines 12-15) on an integer:
`f"{value:,}"`, i.e. decimal digits grouped in threes by commas, with a
leading `-` for negatives. -/
def fmt_number (n : Int) : String :=
  (if n < 0 then "-" else "") ++ String.mk ((groupRev (Nat.repr n.natAbs).data.reverse).reverse)

/-- `fmt_window` (render_report.py lines 18-22).  `strf` abstracts
`datetime.fromtimestamp(ts / 1000).strftime('%b %d %Y %H:%M')`, the
local-timezone formatting of the epoch-millisecond value. -/
def fmt_window (strf : Int → String) : Option Int → String
  | none => "N/A"
  | some t => strf t

/-- `html.escape` on one character (with Python's default `quote=True`). -/
def escapeChar (c : Char) : List Char :=
  if c = '&' then "&amp;".data
  else if c = '<' then "&lt;".data
  else if c = '>' then "&gt;".data
  else if c = Char.ofNat 34 then "&quot;".data
  else if c = Char.ofNat 39 then "&#x27;".data
  else [c]

/-- `html.escape` on a string. -/
def escapeHtml (s : String) : String :=
  String.mk (s.data.map escapeChar).flatten

/-! ### Report Renderer: HTML output -/

/-- The `rows` list of `build_overview_html` (render_report.py lines 42-55):
five fixed rows plus the conditional "Overall window" row, guarded by Python
truthiness of both timestamps. -/
def overview_rows (strf : Int → String) (o : Overview) : List (String × String) :=
  [("Accounts", fmt_number o.accounts),
   ("Total tweets", fmt_number o.totalTweets),
   ("Total likes", fmt_number o.totalLikes),
   ("Total retweets", fmt_number o.totalRetweets),
   ("Total replies", fmt_number o.totalReplies)]
  ++ (if truthyInt o.earliestStart && truthyInt o.latestEnd then
        [("Overall window",
          fmt_window strf o.earliestStart ++ (" to " ++ fmt_window strf o.latestEnd))]
      else [])

/-- One `<tr>` of an overview table row (render_report.py lines 56-59). -/
def overviewRowHtml (r : String × String) : String :=
  "<tr><th>" ++ escapeHtml r.1 ++ ("</th><td>" ++ escapeHtml r.2 ++ "</td></tr>")

/-- `build_overview_html` (render_report.py lines 41-66). -/
def build_overview_html (strf : Int → String) (o : Overview) (windowHours : Int) : String :=
  "<section class=\"card overview\"><h2>Run Overview</h2><p class=\"meta\">Coverage window: last "
  ++ (toString windowHours ++ (" hours</p><table>"
  ++ (String.intercalate "\n" ((overview_rows strf o).map overviewRowHtml)
  ++ "</table></section>")))

/-- The `summary_parts` list of `build_account_html` (render_report.py lines
70-79): an optional `<ul>` of bullets, one `<p>` per paragraph, and the
fallback paragraph when both are empty. -/
def account_summary_parts (a : Account) : List String :=
  let bp := parse_ai_summary a.aiSummary
  let parts :=
    (if bp.1.isEmpty then []
     else ["<ul>" ++ (String.join (bp.1.map (fun item => "<li>" ++ (escapeHtml item ++ "</li>"))) ++ "</ul>")])
    ++ bp.2.map (fun par => "<p>" ++ (escapeHtml par ++ "</p>"))
  if parts.isEmpty then ["<p>No highlights available.</p>"] else parts

/-- The fixed 7-row metrics list of `build_account_html` (lines 81-90). -/
def metrics_rows (m : Metrics) : List (String × Int) :=
  [("Total tweets", m.total),
   ("Originals", m.originals),
   ("Replies", m.replies),
   ("Retweets", m.retweets),
   ("Likes", m.likes),
   ("Retweets (engagement)", m.engagementRetweets),
   ("Replies (engagement)", m.engagementReplies)]

/-- The metrics table body (render_report.py lines 91-94); the numeric cell
is `fmt_number`, not HTML-escaped, as in the source. -/
def metricsTable (m : Metrics) : String :=
  String.intercalate "\n" ((metrics_rows m).map
    (fun r => "<tr><th>" ++ escapeHtml r.1 ++ ("</th><td>" ++ fmt_number r.2 ++ "</td></tr>")))

/-- One `<li>` of the top-tweets list (render_report.py lines 98-110). -/
def tweetHtml (strf : Int → String) (t : Tweet) : String :=
  "<li><div class=\"tweet-meta\">" ++ (escapeHtml (fmt_window strf t.timestamp)
  ++ ("</div><div class=\"tweet-text\">" ++ (escapeHtml t.text
  ++ ("</div><div class=\"tweet-engagement\">likes " ++ (fmt_number t.likes
  ++ (" &middot; retweets " ++ (fmt_number t.retweets
  ++ (" &middot; replies " ++ (fmt_number t.replies
  ++ ("</div>"
  ++ ((if truthyStrOpt t.url then
        "<div class=\"tweet-link\"><a href=\"" ++ (escapeHtml (t.url.getD "") ++ "\">Open</a></div>")
      else "")
  ++ "</li>")))))))))))

/-- The top-tweets block of `build_account_html` (lines 96-114): an ordered
list when `topTweets` is non-empty, else the fixed empty message. -/
def top_tweets_html (strf : Int → String) (a : Account) : String :=
  if a.topTweets.isEmpty then "<p class=\"empty\">No top tweets in this window.</p>"
  else "<ol class=\"tweet-list\">" ++ (String.join (a.topTweets.map (tweetHtml strf)) ++ "</ol>")

/-- Everything `build_account_html` emits before the `<h3>AI Highlights</h3>`
heading (render_report.py lines 116-121). -/
def account_html_pre (strf : Int → String) (a : Account) : String :=
  "<section class=\"card account\"><h2>@" ++ (escapeHtml a.username
  ++ ("</h2><p class=\"meta\">" ++ (fmt_window strf a.windowStart
  ++ (" to " ++ (fmt_window strf a.windowEnd
  ++ ("</p><table>" ++ (metricsTable a.metrics
  ++ ("</table>" ++ "<div class=\"section-block\">"))))))))

/-- Everything `build_account_html` emits after the joined summary parts
(render_report.py lines 124-129). -/
def account_html_suf (strf : Int → String) (a : Account) : String :=
  "</div>" ++ ("<div class=\"section-block\"><h3>Top Tweets</h3>"
  ++ (top_tweets_html strf a ++ "</div></section>"))

/-- `build_account_html` (render_report.py lines 69-130). -/
def build_account_html (strf : Int → String) (a : Account) : String :=
  account_html_pre strf a ++ ("<h3>AI Highlights</h3>"
  ++ (String.join (account_summary_parts a) ++ account_html_suf strf a))

/-- The fixed part of the `render_html` f-string template (render_report.py
lines 137-242) before the interpolated overview section, CSS included;
`\x7b`/`\x7d` are the literal braces the Python `{{`/`}}` escapes produce. -/
def htmlPre : String :=
  "<!DOCTYPE html>\n<html lang=\"en\">\n<head>\n<meta charset=\"utf-8\" />\n<title>Finance Twitter Report</title>\n<style>\n  :root \x7b\n    color-scheme: light dark;\n    font-family: \x27Segoe UI\x27, Tahoma, Arial, sans-serif;\n    --bg: #f8fafc;\n    --card-bg: #ffffff;\n    --text: #111827;\n    --muted: #6b7280;\n    --accent: #2563eb;\n    --border: #e5e7eb;\n  \x7d\n  body \x7b\n    margin: 0;\n    background: var(--bg);\n    color: var(--text);\n  \x7d\n  .container \x7b\n    max-width: 900px;\n    margin: 0 auto;\n    padding: 32px 20px 48px;\n  \x7d\n  h1 \x7b\n    font-size: 28px;\n    margin-bottom: 12px;\n  \x7d\n  .card \x7b\n    background: var(--card-bg);\n    border: 1px solid var(--border);\n    border-radius: 16px;\n    padding: 20px;\n    margin-bottom: 24px;\n    box-shadow: 0 12px 28px rgba(15, 23, 42, 0.08);\n  \x7d\n  .card h2 \x7b\n    margin-top: 0;\n    margin-bottom: 8px;\n    font-size: 22px;\n  \x7d\n  .meta \x7b\n    color: var(--muted);\n    font-size: 14px;\n    margin-top: 0;\n    margin-bottom: 16px;\n  \x7d\n  table \x7b\n    width: 100%;\n    border-collapse: collapse;\n    margin-bottom: 18px;\n  \x7d\n  th \x7b\n    text-align: left;\n    font-weight: 600;\n    padding: 6px 0;\n    color: var(--muted);\n    width: 45%;\n  \x7d\n  td \x7b\n    padding: 6px 0;\n  \x7d\n  ul \x7b\n    padding-left: 20px;\n  \x7d\n  .section-block \x7b\n    margin-top: 16px;\n  \x7d\n  .section-block h3 \x7b\n    margin-bottom: 8px;\n    font-size: 18px;\n  \x7d\n  .tweet-list \x7b\n    padding-left: 18px;\n  \x7d\n  .tweet-list li \x7b\n    margin-bottom: 14px;\n  \x7d\n  .tweet-meta \x7b\n    font-size: 13px;\n    color: var(--muted);\n  \x7d\n  .tweet-text \x7b\n    margin: 4px 0;\n  \x7d\n  .tweet-engagement \x7b\n    font-size: 13px;\n    color: var(--muted);\n  \x7d\n  .tweet-link a \x7b\n    color: var(--accent);\n    text-decoration: none;\n  \x7d\n  .tweet-link a:hover \x7b\n    text-decoration: underline;\n  \x7d\n  .empty \x7b\n    color: var(--muted);\n  \x7d\n</style>\n</head>\n<body>\n  <div class=\"container\">\n    <h1>Finance Twitter Report</h1>\n    "

/-- The template text between the overview and accounts interpolations. -/
def htmlMid : String :=
  "\n    "

/-- The template text after the accounts interpolation (lines 245-247). -/
def htmlPost : String :=
  "\n  </div>\n</body>\n</html>"

/-- `render_html` (render_report.py lines 133-247). -/
def render_html (strf : Int → String) (p : Payload) : String :=
  htmlPre ++ (build_overview_html strf p.overview p.windowHours
  ++ (htmlMid ++ (String.intercalate "\n" (p.accounts.map (build_account_html strf))
  ++ htmlPost)))

/-! ### Report Renderer: plain-text output -/

/-- `textwrap.indent(text, '  ')` with the default predicate: prefix the
lines that contain non-whitespace (modelled over `\n`-separated lines). -/
def indentPy (s : String) : String :=
  String.intercalate "\n" ((s.splitOn "\n").map
    (fun l => if (pyStrip l.data).isEmpty then l else "  " ++ l))

/-- The overview block of `render_text` (render_report.py lines 256-268):
header, plain counts, a comma-grouped engagement line, and the conditional
"Overall window" line under the same truthiness guard as the HTML. -/
def overview_text_lines (strf : Int → String) (o : Overview) : List String :=
  ["=== Run Overview ===",
   "Accounts: " ++ toString o.accounts,
   "Total tweets: " ++ toString o.totalTweets,
   "Engagement totals - likes: " ++ (fmt_number o.totalLikes
     ++ (", retweets: " ++ (fmt_number o.totalRetweets
     ++ (", replies: " ++ fmt_number o.totalReplies))))]
  ++ (if truthyInt o.earliestStart && truthyInt o.latestEnd then
        ["Overall window: " ++ (fmt_window strf o.earliestStart
          ++ (" to " ++ fmt_window strf o.latestEnd))]
      else [])

/-- The AI-highlights block of `render_text` (lines 288-294): the raw
`splitlines()` of the summary when truthy, each line stripped, wrapped by
`textwrap.wrap(_, 90)` (abstracted as `wrapFn`), re-joined and indented —
falling back to the raw item when the wrap joins to the empty string — or
the fixed fallback line when the summary is `None`/empty. -/
def ai_text_block (wrapFn : String → List String) (s : Option String) : List String :=
  let summary_lines :=
    match s with
    | none => []
    | some str => if str = "" then [] else (pySplitlines str.data).map String.mk
  if summary_lines.isEmpty then ["  No highlights available."]
  else summary_lines.map (fun item =>
    let j := String.intercalate "\n" (wrapFn (pyStripStr item))
    indentPy (if j = "" then item else j))

/-- The 1-indexed tweet entries of `render_text` (lines 298-308): a header
line, an engagement line, and a link line only when the URL is truthy. -/
def tweetTextEntries (strf : Int → String) : Nat → List Tweet → List String
  | _, [] => []
  | idx, t :: ts =>
    ("  " ++ (toString idx ++ (". [" ++ (fmt_window strf t.timestamp ++ ("] " ++ t.text)))))
    :: ("    likes " ++ (fmt_number t.likes ++ (" | retweets " ++ (fmt_number t.retweets
        ++ (" | replies " ++ fmt_number t.replies)))))
    :: ((if truthyStrOpt t.url then ["    link: " ++ t.url.getD ""] else [])
        ++ tweetTextEntries strf (idx + 1) ts)

/-- The per-account block of `render_text` (lines 271-311), ending with the
blank separator line the loop appends. -/
def account_text_lines (strf : Int → String) (wrapFn : String → List String)
    (a : Account) : List String :=
  ["=== @" ++ (a.username ++ " ==="),
   "Window: " ++ (fmt_window strf a.windowStart ++ (" to " ++ fmt_window strf a.windowEnd)),
   "Tweets collected: " ++ (toString a.metrics.total ++ (" (originals: "
     ++ (toString a.metrics.originals ++ (", replies: " ++ (toString a.metrics.replies
     ++ (", retweets: " ++ (toString a.metrics.retweets ++ ")"))))))),
   "Engagement totals - likes: " ++ (fmt_number a.metrics.likes
     ++ (", retweets: " ++ (fmt_number a.metrics.engagementRetweets
     ++ (", replies: " ++ fmt_number a.metrics.engagementReplies)))),
   "AI Highlights:"]
  ++ ai_text_block wrapFn a.aiSummary
  ++ (if a.topTweets.isEmpty then ["Top tweets: none in this window."]
      else "Top tweets:" :: tweetTextEntries strf 1 a.topTweets)
  ++ [""]

/-- The full `lines` list `render_text` builds (lines 251-311). -/
def render_text_lines (strf : Int → String) (wrapFn : String → List String)
    (p : Payload) : List String :=
  ["Finance Twitter report covering the last " ++ (toString p.windowHours ++ " hours"), ""]
  ++ overview_text_lines strf p.overview
  ++ [""]
  ++ (p.accounts.map (account_text_lines strf wrapFn)).flatten

/-- `render_text` (render_report.py lines 250-313):
`'\n'.join(lines).strip() + '\n'`. -/
def render_text (strf : Int → String) (wrapFn : String → List String)
    (p : Payload) : String :=
  pyStripStr (String.intercalate "\n" (render_text_lines strf wrapFn p)) ++ "\n"

/-! ### Report Renderer: `main` (render_report.py lines 316-328)

The payload arrives as parsed JSON of unknown shape; a missing or wrongly
typed field makes the Python renderers raise mid-computation.  `JVal` models
the parsed JSON value (numbers as integers), and `decodePayload` performs
exactly the field accesses the two renderers make, failing where Python
would raise. -/

/-- A parsed JSON value. -/
inductive JVal where
  | jnull : JVal
  | jbool : Bool → JVal
  | jnum : Int → JVal
  | jstr : String → JVal
  | jarr : List JVal → JVal
  | jobj : List (String × JVal) → JVal

/-- Python `payload[key]` on a dict: `KeyError` when absent, `TypeError`
when the value is not a dict. -/
def getKey (j : JVal) (k : String) : Except String JVal :=
  match j with
  | .jobj fields =>
    match fields.lookup k with
    | some v => .ok v
    | none => .error ("KeyError: " ++ k)
  | _ => .error ("TypeError: value is not a dict: " ++ k)

/-- Read a JSON number as the integer the renderer formats. -/
def asInt (j : JVal) : Except String Int :=
  match j with
  | .jnum n => .ok n
  | _ => .error "TypeError: expected a number"

/-- Read a nullable JSON number (the timestamp fields). -/
def asOptInt (j : JVal) : Except String (Option Int) :=
  match j with
  | .jnull => .ok none
  | .jnum n => .ok (some n)
  | _ => .error "TypeError: expected a number or null"

/-- Read a JSON string. -/
def asStr (j : JVal) : Except String String :=
  match j with
  | .jstr s => .ok s
  | _ => .error "TypeError: expected a string"

/-- Read a nullable JSON string (`aiSummary`, `url`). -/
def asOptStr (j : JVal) : Except String (Option String) :=
  match j with
  | .jnull => .ok none
  | .jstr s => .ok (some s)
  | _ => .error "TypeError: expected a string or null"

/-- Read a JSON array. -/
def asArr (j : JVal) : Except String (List JVal) :=
  match j with
  | .jarr xs => .ok xs
  | _ => .error "TypeError: expected a list"

/-- The field accesses of `build_overview_html` / `render_text` on the
`overview` object. -/
def decodeOverview (j : JVal) : Except String Overview := do
  let accounts ← getKey j "accounts" >>= asInt
  let totalTweets ← getKey j "totalTweets" >>= asInt
  let totalLikes ← getKey j "totalLikes" >>= asInt
  let totalRetweets ← getKey j "totalRetweets" >>= asInt
  let totalReplies ← getKey j "totalReplies" >>= asInt
  let earliestStart ← getKey j "earliestStart" >>= asOptInt
  let latestEnd ← getKey j "latestEnd" >>= asOptInt
  pure ⟨accounts, totalTweets, totalLikes, totalRetweets, totalReplies, earliestStart, latestEnd⟩

/-- The field accesses on one `metrics` object. -/
def decodeMetrics (j : JVal) : Except String Metrics := do
  let total ← getKey j "total" >>= asInt
  let originals ← getKey j "originals" >>= asInt
  let replies ← getKey j "replies" >>= asInt
  let retweets ← getKey j "retweets" >>= asInt
  let likes ← getKey j "likes" >>= asInt
  let engagementRetweets ← getKey j "engagementRetweets" >>= asInt
  let engagementReplies ← getKey j "engagementReplies" >>= asInt
  pure ⟨total, originals, replies, retweets, likes, engagementRetweets, engagementReplies⟩

/-- The field accesses on one tweet object. -/
def decodeTweet (j : JVal) : Except String Tweet := do
  let timestamp ← getKey j "timestamp" >>= asOptInt
  let text ← getKey j "text" >>= asStr
  let likes ← getKey j "likes" >>= asInt
  let retweets ← getKey j "retweets" >>= asInt
  let replies ← getKey j "replies" >>= asInt
  let url ← getKey j "url" >>= asOptStr
  pure ⟨timestamp, text, likes, retweets, replies, url⟩

/-- The field accesses on one account object. -/
def decodeAccount (j : JVal) : Except String Account := do
  let username ← getKey j "username" >>= asStr
  let windowStart ← getKey j "windowStart" >>= asOptInt
  let windowEnd ← getKey j "windowEnd" >>= asOptInt
  let metrics ← getKey j "metrics" >>= decodeMetrics
  let aiSummary ← getKey j "aiSummary" >>= asOptStr
  let topTweetsJ ← getKey j "topTweets" >>= asArr
  let topTweets ← topTweetsJ.mapM decodeTweet
  pure ⟨username, windowStart, windowEnd, metrics, aiSummary, topTweets⟩

/-- All field accesses rendering performs on the payload; any missing or
mistyped field yields the error Python would raise. -/
def decodePayload (j : JVal) : Except String Payload := do
  let overviewJ ← getKey j "overview"
  let overview ← decodeOverview overviewJ
  let windowHours ← getKey j "windowHours" >>= asInt
  let accountsJ ← getKey j "accounts" >>= asArr
  let accounts ← accountsJ.mapM decodeAccount
  pure ⟨windowHours, overview, accounts⟩

/-- `html_output = render_html(payload)` on raw JSON: the computation that
either produces the HTML string or raises. -/
def renderHtmlE (strf : Int → String) (j : JVal) : Except String String :=
  (decodePayload j).map (render_html strf)

/-- `text_output = render_text(payload)` on raw JSON. -/
def renderTextE (strf : Int → String) (wrapFn : String → List String)
    (j : JVal) : Except String String :=
  (decodePayload j).map (render_text strf wrapFn)

/-- `main()` of render_report.py (lines 316-328) with the `__main__` wrapper
(lines 331-336): compute the HTML string, then the text string, and only
then write the two output files; any exception yields exit code 1 with no
file written.  Returns the list of `(path, contents)` writes and the exit
code. -/
def renderMain (strf : Int → String) (wrapFn : String → List String)
    (htmlPath textPath : String) (j : JVal) : List (String × String) × Nat :=
  match renderHtmlE strf j with
  | .error _ => ([], 1)
  | .ok h =>
    match renderTextE strf wrapFn j with
    | .error _ => ([], 1)
    | .ok t => ([(htmlPath, h), (textPath, t)], 0)

/-- `small` occurs as a contiguous substring of `big`. -/
def strContains (big small : String) : Prop :=
  small.data <:+: big.data

/-! ### Helper lemmas -/

/-- `String.data` distributes over append (definitional in this model). -/
theorem str_data_append (a b : String) : (a ++ b).data = a.data ++ b.data := rfl

/-- Two strings with different first characters differ. -/
theorem ne_of_head (s t : String) (c d : Char) (hs : s.data.head? = some c)
    (ht : t.data.head? = some d) (hcd : c ≠ d) : s ≠ t := by
  intro h
  subst h
  rw [hs] at ht
  exact hcd (Option.some.inj ht)

/-- A string is a substring of itself followed by anything. -/
theorem strContains_self_app (m t : String) : strContains (m ++ t) m :=
  ⟨[], t.data, rfl⟩

/-- Substring containment is stable under prepending. -/
theorem strContains_appL (p s m : String) (h : strContains s m) : strContains (p ++ s) m := by
  obtain ⟨u, v, huv⟩ := h
  exact ⟨p.data ++ u, v, by rw [str_data_append, ← huv]; simp⟩

/-- The loop of `parse_ai_summary` partitions its input lines: the bullets
are the bullet lines' contents in order, the paragraphs the remaining lines
in order. -/
theorem classifyLines_eq (ls : List (List Char)) :
    classifyLines ls =
      ((ls.filter isBulletLine).map bulletContent,
       (ls.filter (fun l => !isBulletLine l)).map String.mk) := by
  induction ls with
  | nil => rfl
  | cons l rest ih =>
    by_cases hd : isDashStar l = true
    · simp [classifyLines, ih, hd, isBulletLine, bulletContent]
    · by_cases hn : isNumMark l = true
      · simp [classifyLines, ih, hd, hn, isBulletLine, bulletContent]
      · simp [classifyLines, ih, hd, hn, isBulletLine]

/-- A boolean predicate splits a list's length into the two filters. -/
theorem length_filter_split (p : List Char → Bool) (ls : List (List Char)) :
    (ls.filter p).length + (ls.filter (fun l => !p l)).length = ls.length := by
  induction ls with
  | nil => rfl
  | cons l rest ih =>
    by_cases h : p l = true <;> simp [List.filter, h, ← ih] <;> omega

/-! ### Claims -/

/-- Claim C1 (code_bug evaluation): on the spec's own test input
`"- a\n- b\n2. c\nplain text"` the parser does NOT classify `"2. c"` as a
bullet — `line[:2].isdigit()` demands two leading digits — so it returns
bullets `["a", "b"]` and paragraphs `["2. c", "plain text"]`, not the
specified `["a", "b", "c"]` / `["plain text"]`; a two-digit marker such as
`"12. c"` is accepted instead. -/
theorem parse_numbered_bullet_failing_eval :
    parse_ai_summary (some "- a\n- b\n2. c\nplain text")
      = (["a", "b"], ["2. c", "plain text"])
    ∧ parse_ai_summary (some "- a\n- b\n12. c\nplain text")
      = (["a", "b", "c"], ["plain text"]) := by
  constructor <;> decide

/-- Claim C9: the parser partitions the non-empty stripped lines of its
input — bullets are exactly the bullet-classified lines' contents in their
original order, paragraphs exactly the other lines in their original order,
and the two lengths sum to the number of non-empty lines. -/
theorem parse_partitions_lines (s : Option String) :
    (parse_ai_summary s).1 = ((summaryLines s).filter isBulletLine).map bulletContent
    ∧ (parse_ai_summary s).2 = ((summaryLines s).filter (fun l => !isBulletLine l)).map String.mk
    ∧ (parse_ai_summary s).1.length + (parse_ai_summary s).2.length = (summaryLines s).length := by
  have key : ∀ ls : List (List Char),
      classifyLines ls =
        ((ls.filter isBulletLine).map bulletContent,
         (ls.filter (fun l => !isBulletLine l)).map String.mk) := classifyLines_eq
  match s with
  | none => exact ⟨rfl, rfl, rfl⟩
  | some str =>
    by_cases h : str = ""
    · subst h; exact ⟨rfl, rfl, rfl⟩
    · have hp : parse_ai_summary (some str) = classifyLines (nonEmptyLines str) := by
        simp [parse_ai_summary, h]
      have hl : summaryLines (some str) = nonEmptyLines str := by
        simp [summaryLines, h]
      rw [hp, hl, key]
      refine ⟨rfl, rfl, ?_⟩
      simp only [List.length_map]
      exact length_filter_split isBulletLine (nonEmptyLines str)

/-- Claim C4: when the payload's `prompt` is missing or empty the Summary
Fetcher exits with code 1 and issues no network request (whatever the API
key and the network behaviour). -/
theorem missing_prompt_no_network (apiKey : Option String) (data : GenPayload)
    (send : GenRequest → GenResponse)
    (h : data.prompt = none ∨ data.prompt = some "") :
    (aiRun apiKey data send).1 = []
    ∧ exitCodeOf (aiRun apiKey data send).2 = 1 := by
  rcases h with h | h <;>
    (cases apiKey with
     | none => simp [aiRun, aiMain, exitCodeOf]
     | some key =>
       by_cases hk : key = "" <;> simp [aiRun, aiMain, hk, h, exitCodeOf])

/-- Witness for C4 at a concrete input: prompt absent, key present, network
answering successfully — still exit 1 with no request issued. -/
theorem missing_prompt_no_network_witness :
    ((⟨none, none⟩ : GenPayload).prompt = none ∨ (⟨none, none⟩ : GenPayload).prompt = some "")
    ∧ (aiRun (some "k") ⟨none, none⟩ (fun _ => ⟨true, some []⟩)).1 = []
    ∧ exitCodeOf (aiRun (some "k") ⟨none, none⟩ (fun _ => ⟨true, some []⟩)).2 = 1 :=
  ⟨Or.inl rfl, missing_prompt_no_network (some "k") ⟨none, none⟩ _ (Or.inl rfl)⟩

/-- Claim C5: a 2xx response whose `candidates` field is the empty list makes
the fetcher exit 1, printing to stderr the prefixed message
`"AI summary renderer failed: No candidates returned by Gemini API"`, which
mentions "No candidates". -/
theorem empty_candidates_failure (key : String) (data : GenPayload) (p : String)
    (send : GenRequest → GenResponse)
    (hk : key ≠ "") (hp : data.prompt = some p) (hpne : p ≠ "")
    (hok : (send (builtRequest key data)).ok = true)
    (hcand : (send (builtRequest key data)).candidates = some []) :
    aiRun (some key) data send
      = ([builtRequest key data],
         .failure "AI summary renderer failed: No candidates returned by Gemini API")
    ∧ exitCodeOf (aiRun (some key) data send).2 = 1
    ∧ strContains "AI summary renderer failed: No candidates returned by Gemini API"
        "No candidates" := by
  have hmain : aiMain (some key) data send
      = ([builtRequest key data], .error "No candidates returned by Gemini API") := by
    simp [aiMain, hk, hp, hpne, hok, hcand]
  refine ⟨?_, ?_, ?_⟩
  · simp [aiRun, hmain]
  · simp [aiRun, hmain, exitCodeOf]
  · exact (by decide :
      ("No candidates" : String).data <:+:
        ("AI summary renderer failed: No candidates returned by Gemini API" : String).data)

/-- Witness for C5 at a concrete input. -/
theorem empty_candidates_failure_witness :
    aiRun (some "k") ⟨none, some "hi"⟩ (fun _ => ⟨true, some []⟩)
      = ([builtRequest "k" ⟨none, some "hi"⟩],
         .failure "AI summary renderer failed: No candidates returned by Gemini API")
    ∧ exitCodeOf (aiRun (some "k") ⟨none, some "hi"⟩ (fun _ => ⟨true, some []⟩)).2 = 1 :=
  ⟨(empty_candidates_failure "k" ⟨none, some "hi"⟩ "hi" _
      (by decide) rfl (by decide) rfl rfl).1,
   (empty_candidates_failure "k" ⟨none, some "hi"⟩ "hi" _
      (by decide) rfl (by decide) rfl rfl).2.1⟩

/-- Claim C6: on a 2xx response with at least one candidate, the fetcher
prints exactly the whitespace-trimmed, separator-free concatenation of the
first candidate's part texts (the spec-side `firstCandidateText`), and fails
with exit 1 when that trimmed concatenation is empty. -/
theorem first_candidate_concat_output (key : String) (data : GenPayload) (p : String)
    (send : GenRequest → GenResponse) (c : GenCandidate) (cs : List GenCandidate)
    (hk : key ≠ "") (hp : data.prompt = some p) (hpne : p ≠ "")
    (hok : (send (builtRequest key data)).ok = true)
    (hcand : (send (builtRequest key data)).candidates = some (c :: cs)) :
    (firstCandidateText (send (builtRequest key data)) ≠ "" →
       aiRun (some key) data send
         = ([builtRequest key data],
            .success (firstCandidateText (send (builtRequest key data)))))
    ∧ (firstCandidateText (send (builtRequest key data)) = "" →
       aiRun (some key) data send
         = ([builtRequest key data],
            .failure "AI summary renderer failed: Gemini response contained no text")) := by
  have hfct : firstCandidateText (send (builtRequest key data)) = candidateText c := by
    simp [firstCandidateText, hcand]
  constructor
  · intro hne
    rw [hfct] at hne ⊢
    have hmain : aiMain (some key) data send
        = ([builtRequest key data], .ok (candidateText c)) := by
      simp [aiMain, hk, hp, hpne, hok, hcand, hne]
    simp [aiRun, hmain]
  · intro he
    rw [hfct] at he
    have hmain : aiMain (some key) data send
        = ([builtRequest key data], .error "Gemini response contained no text") := by
      simp [aiMain, hk, hp, hpne, hok, hcand, he]
    simp [aiRun, hmain]

/-- Witness for C6 at a concrete input: two parts `" hello "` and `"world"`
concatenate and trim to `"hello world"`, which is printed. -/
theorem first_candidate_concat_output_witness :
    aiRun (some "k") ⟨none, some "hi"⟩
        (fun _ => ⟨true, some [⟨some ⟨some [⟨some " hello "⟩, ⟨some "world"⟩]⟩⟩]⟩)
      = ([builtRequest "k" ⟨none, some "hi"⟩], .success "hello world") :=
  (first_candidate_concat_output "k" ⟨none, some "hi"⟩ "hi"
      (fun _ => ⟨true, some [⟨some ⟨some [⟨some " hello "⟩, ⟨some "world"⟩]⟩⟩]⟩)
      ⟨some ⟨some [⟨some " hello "⟩, ⟨some "world"⟩]⟩⟩ []
      (by decide) rfl (by decide) rfl rfl).1 (by decide)

/-- Claim C2 counterexample: with `earliestStart = 0` (epoch-millisecond 0 —
present and non-null) and `latestEnd` present, both outputs omit the
"Overall window" row/line: the guard is Python truthiness, which treats the
present value `0` as missing, so "rendered iff both present" fails. -/
theorem overall_window_present_not_rendered :
    (Overview.mk 1 2 3 4 5 (some 0) (some 1700000000000)).earliestStart ≠ none
    ∧ (Overview.mk 1 2 3 4 5 (some 0) (some 1700000000000)).latestEnd ≠ none
    ∧ (∀ v, ("Overall window", v) ∉
        overview_rows (fun _ => "T") (Overview.mk 1 2 3 4 5 (some 0) (some 1700000000000)))
    ∧ (∀ v, ("Overall window: " ++ v) ∉
        overview_text_lines (fun _ => "T") (Overview.mk 1 2 3 4 5 (some 0) (some 1700000000000))) := by
  refine ⟨by decide, by decide, ?_, ?_⟩
  · intro v hv
    simp only [overview_rows, truthyInt] at hv
    norm_num at hv
    rcases hv with h | h | h | h | h <;> exact absurd h.1 (by decide)
  · intro v hv
    simp only [overview_text_lines, truthyInt] at hv
    norm_num at hv
    rcases hv with h | h | h | h
    · exact absurd h (ne_of_head _ _ 'O' '=' rfl rfl (by decide))
    · exact absurd h (ne_of_head _ _ 'O' 'A' rfl rfl (by decide))
    · exact absurd h (ne_of_head _ _ 'O' 'T' rfl rfl (by decide))
    · exact absurd h (ne_of_head _ _ 'O' 'E' rfl rfl (by decide))

/-- Claim C2 (amended): the "Overall window" row of the HTML overview table
and the "Overall window: ..." line of the text overview block are rendered
iff both `earliestStart` and `latestEnd` are truthy — present AND non-zero
(Python truthiness); a null timestamp therefore always omits them. -/
theorem overall_window_iff_truthy (strf : Int → String) (o : Overview) :
    ((∃ v, ("Overall window", v) ∈ overview_rows strf o)
       ↔ (truthyInt o.earliestStart && truthyInt o.latestEnd) = true)
    ∧ ((∃ v, ("Overall window: " ++ v) ∈ overview_text_lines strf o)
       ↔ (truthyInt o.earliestStart && truthyInt o.latestEnd) = true) := by
  by_cases h : (truthyInt o.earliestStart && truthyInt o.latestEnd) = true
  · refine ⟨⟨fun _ => h, fun _ => ?_⟩, ⟨fun _ => h, fun _ => ?_⟩⟩
    · refine ⟨fmt_window strf o.earliestStart ++ (" to " ++ fmt_window strf o.latestEnd), ?_⟩
      simp [overview_rows, h]
    · refine ⟨fmt_window strf o.earliestStart ++ (" to " ++ fmt_window strf o.latestEnd), ?_⟩
      simp [overview_text_lines, h]
  · refine ⟨⟨fun hex => ?_, fun hc => absurd hc h⟩, ⟨fun hex => ?_, fun hc => absurd hc h⟩⟩
    · obtain ⟨v, hv⟩ := hex
      simp only [overview_rows, h, Bool.not_eq_true] at hv
      norm_num at hv
      rcases hv with h1 | h1 | h1 | h1 | h1 <;> exact absurd h1.1 (by decide)
    · obtain ⟨v, hv⟩ := hex
      simp only [overview_text_lines, h, Bool.not_eq_true] at hv
      norm_num at hv
      rcases hv with h1 | h1 | h1 | h1
      · exact absurd h1 (ne_of_head _ _ 'O' '=' rfl rfl (by decide))
      · exact absurd h1 (ne_of_head _ _ 'O' 'A' rfl rfl (by decide))
      · exact absurd h1 (ne_of_head _ _ 'O' 'T' rfl rfl (by decide))
      · exact absurd h1 (ne_of_head _ _ 'O' 'E' rfl rfl (by decide))

/-- A target split as `m1 ++ m2` occurs in `pre ++ (m1 ++ (m2 ++ suf))`. -/
theorem strContains_glue (pre m1 m2 suf : String) :
    strContains (pre ++ (m1 ++ (m2 ++ suf))) (m1 ++ m2) := by
  refine ⟨pre.data, suf.data, ?_⟩
  simp [strContains, str_data_append, List.append_assoc]

/-- Claim C3: for a null or empty `aiSummary` the parser yields two empty
sequences, the HTML AI-Highlights block renders exactly the fallback
paragraph (so the account section contains
`<h3>AI Highlights</h3><p>No highlights available.</p>`), and the text
output's account block contains the line `"  No highlights available."`. -/
theorem ai_summary_empty_fallback (strf : Int → String) (wrapFn : String → List String)
    (a : Account) (h : a.aiSummary = none ∨ a.aiSummary = some "") :
    parse_ai_summary a.aiSummary = ([], [])
    ∧ account_summary_parts a = ["<p>No highlights available.</p>"]
    ∧ strContains (build_account_html strf a)
        "<h3>AI Highlights</h3><p>No highlights available.</p>"
    ∧ "  No highlights available." ∈ account_text_lines strf wrapFn a := by
  obtain ⟨un, ws, we, mm, ai, tt⟩ := a
  rcases h with h | h
  · change ai = none at h
    subst h
    refine ⟨rfl, rfl, ?_, ?_⟩
    · show strContains
        (account_html_pre strf ⟨un, ws, we, mm, none, tt⟩
          ++ ("<h3>AI Highlights</h3>"
          ++ (String.join ["<p>No highlights available.</p>"]
          ++ account_html_suf strf ⟨un, ws, we, mm, none, tt⟩)))
        "<h3>AI Highlights</h3><p>No highlights available.</p>"
      exact strContains_glue _ _ _ _
    · simp [account_text_lines, ai_text_block]
  · change ai = some "" at h
    subst h
    refine ⟨rfl, rfl, ?_, ?_⟩
    · show strContains
        (account_html_pre strf ⟨un, ws, we, mm, some "", tt⟩
          ++ ("<h3>AI Highlights</h3>"
          ++ (String.join ["<p>No highlights available.</p>"]
          ++ account_html_suf strf ⟨un, ws, we, mm, some "", tt⟩)))
        "<h3>AI Highlights</h3><p>No highlights available.</p>"
      exact strContains_glue _ _ _ _
    · simp [account_text_lines, ai_text_block]

/-- Witness for C3 at a concrete account with `aiSummary = none`. -/
theorem ai_summary_empty_fallback_witness :
    ((Account.mk "trader" none none (Metrics.mk 0 0 0 0 0 0 0) none []).aiSummary = none
      ∨ (Account.mk "trader" none none (Metrics.mk 0 0 0 0 0 0 0) none []).aiSummary = some "")
    ∧ (parse_ai_summary (Account.mk "trader" none none (Metrics.mk 0 0 0 0 0 0 0) none []).aiSummary
        = ([], [])
      ∧ account_summary_parts (Account.mk "trader" none none (Metrics.mk 0 0 0 0 0 0 0) none [])
        = ["<p>No highlights available.</p>"]
      ∧ strContains
          (build_account_html (fun _ => "Jan 01 1970 00:00")
            (Account.mk "trader" none none (Metrics.mk 0 0 0 0 0 0 0) none []))
          "<h3>AI Highlights</h3><p>No highlights available.</p>"
      ∧ "  No highlights available." ∈
          account_text_lines (fun _ => "Jan 01 1970 00:00") (fun _ => [])
            (Account.mk "trader" none none (Metrics.mk 0 0 0 0 0 0 0) none [])) :=
  ⟨Or.inl rfl,
   ai_summary_empty_fallback (fun _ => "Jan 01 1970 00:00") (fun _ => [])
     (Account.mk "trader" none none (Metrics.mk 0 0 0 0 0 0 0) none []) (Or.inl rfl)⟩

/-- Claim C7: an account with empty `topTweets` renders
`<p class="empty">No top tweets in this window.</p>` in place of the ordered
list in the HTML account section, and the line
`"Top tweets: none in this window."` in the text output. -/
theorem empty_top_tweets_rendering (strf : Int → String) (wrapFn : String → List String)
    (a : Account) (h : a.topTweets = []) :
    top_tweets_html strf a = "<p class=\"empty\">No top tweets in this window.</p>"
    ∧ strContains (build_account_html strf a)
        "<p class=\"empty\">No top tweets in this window.</p>"
    ∧ "Top tweets: none in this window." ∈ account_text_lines strf wrapFn a := by
  obtain ⟨un, ws, we, mm, ai, tt⟩ := a
  change tt = [] at h
  subst h
  refine ⟨rfl, ?_, ?_⟩
  · show strContains
      (account_html_pre strf ⟨un, ws, we, mm, ai, []⟩
        ++ ("<h3>AI Highlights</h3>"
        ++ (String.join (account_summary_parts ⟨un, ws, we, mm, ai, []⟩)
        ++ ("</div>"
        ++ ("<div class=\"section-block\"><h3>Top Tweets</h3>"
        ++ ("<p class=\"empty\">No top tweets in this window.</p>" ++ "</div></section>"))))))
      "<p class=\"empty\">No top tweets in this window.</p>"
    exact strContains_appL _ _ _ (strContains_appL _ _ _ (strContains_appL _ _ _
      (strContains_appL _ _ _ (strContains_appL _ _ _ (strContains_self_app _ _)))))
  · simp [account_text_lines]

/-- Witness for C7 at a concrete account with no top tweets. -/
theorem empty_top_tweets_rendering_witness :
    (Account.mk "trader" none none (Metrics.mk 0 0 0 0 0 0 0) none []).topTweets = []
    ∧ (top_tweets_html (fun _ => "T") (Account.mk "trader" none none (Metrics.mk 0 0 0 0 0 0 0) none [])
        = "<p class=\"empty\">No top tweets in this window.</p>"
      ∧ strContains
          (build_account_html (fun _ => "T")
            (Account.mk "trader" none none (Metrics.mk 0 0 0 0 0 0 0) none []))
          "<p class=\"empty\">No top tweets in this window.</p>"
      ∧ "Top tweets: none in this window." ∈
          account_text_lines (fun _ => "T") (fun _ => [])
            (Account.mk "trader" none none (Metrics.mk 0 0 0 0 0 0 0) none [])) :=
  ⟨rfl,
   empty_top_tweets_rendering (fun _ => "T") (fun _ => [])
     (Account.mk "trader" none none (Metrics.mk 0 0 0 0 0 0 0) none []) rfl⟩

/-- Claim C8: both renderers are deterministic.  In this embedding every
run-to-run input is explicit — the payload, the local-timezone timestamp
formatter `strf`, and the 90-column wrapper `wrapFn`; the renderers consume
nothing else (no randomness, no clock), so two runs on the same payload in
the same environment produce identical bytes. -/
theorem renderers_deterministic (strf : Int → String) (wrapFn : String → List String)
    (p : Payload) :
    render_html strf p = render_html strf p
    ∧ render_text strf wrapFn p = render_text strf wrapFn p :=
  ⟨rfl, rfl⟩

/-- Claim C10: `main` computes the HTML string and the text string before
writing either file, so whenever rendering fails (a missing or mistyped
payload field) the process exits 1 having written no output file at all. -/
theorem render_error_no_writes (strf : Int → String) (wrapFn : String → List String)
    (htmlPath textPath : String) (j : JVal)
    (h : (∃ e, renderHtmlE strf j = .error e) ∨ (∃ e, renderTextE strf wrapFn j = .error e)) :
    renderMain strf wrapFn htmlPath textPath j = ([], 1) := by
  rcases h with ⟨e, he⟩ | ⟨e, he⟩
  · simp [renderMain, he]
  · have hhtml : ∃ e2, renderHtmlE strf j = .error e2 := by
      unfold renderTextE at he
      unfold renderHtmlE
      cases hd : decodePayload j with
      | error e2 => exact ⟨e2, by simp [hd, Except.map]⟩
      | ok p => rw [hd] at he; simp [Except.map] at he
    obtain ⟨e2, he2⟩ := hhtml
    simp [renderMain, he2]

/-- Witness for C10: the empty JSON object is missing `overview`, so the
renderer exits 1 without writing either file. -/
theorem render_error_no_writes_witness :
    renderMain (fun _ => "") (fun _ => []) "report.html" "report.txt" (.jobj []) = ([], 1) :=
  render_error_no_writes (fun _ => "") (fun _ => []) "report.html" "report.txt" (.jobj [])
    (Or.inl ⟨"KeyError: overview", rfl⟩)
